import Mathlib

/-!
Verification development for the pickup-resolution pipeline of
`app/utils/pickup.server.js` (click & collect backend).

The JavaScript source is shallowly embedded: JS numbers are modelled by
`JsNum` (NaN / signed infinity / finite rational), JSON-ish values by
`JsValue`, thrown application errors by `AppErr`, and every outbound HTTP
call (Google geocoding, OSM Nominatim, Shopify GraphQL) by an explicit
environment of response functions.  The module-level LRU caches are
modelled as association lists threaded through the functions (TTL expiry
and LRU eviction are time/size behaviours outside the claims and are not
modelled; `get`/`set` semantics are).  Each embedded function also returns
the list of provider calls it performed, making "which provider was
contacted" an observable.
-/

/-- Model of a JavaScript number: NaN, ±Infinity, or a finite value
(finite doubles are modelled as rationals). -/
inductive JsNum where
  | nan : JsNum
  | inf (pos : Bool) : JsNum
  | fin (q : ℚ) : JsNum
deriving DecidableEq

/-- `Number.isFinite` on the JS-number model. -/
def JsNum.isFinite : JsNum → Bool
  | .fin _ => true
  | _ => false

/-- The rational value of a finite JS number (junk value 0 on NaN/∞). -/
def JsNum.ratValue : JsNum → ℚ
  | .fin q => q
  | _ => 0

/-- Whether a JS number is NaN. -/
def JsNum.isNaN : JsNum → Bool
  | .nan => true
  | _ => false

/-- JS `<=` on numbers: false whenever either side is NaN, otherwise the
order with −∞ below every number and +∞ above. -/
def JsNum.jsLe : JsNum → JsNum → Bool
  | .nan, _ => false
  | .inf _, .nan => false
  | .fin _, .nan => false
  | .inf false, .inf _ => true
  | .inf false, .fin _ => true
  | .inf true, .inf pb => pb
  | .inf true, .fin _ => false
  | .fin _, .inf pb => pb
  | .fin a, .fin b => a ≤ b

/-- JS `<` on numbers: false whenever either side is NaN. -/
def JsNum.jsLt : JsNum → JsNum → Bool
  | .nan, _ => false
  | .inf _, .nan => false
  | .fin _, .nan => false
  | .inf true, _ => false
  | .inf false, .inf pb => pb
  | .inf false, .fin _ => true
  | .fin _, .inf pb => pb
  | .fin a, .fin b => a < b

/-- JS `>` on numbers (`a > b` iff `b < a`; false on NaN). -/
def JsNum.jsGt (a b : JsNum) : Bool :=
  JsNum.jsLt b a

/-- Model of a JSON-ish JavaScript value as received from a request body
or the environment. -/
inductive JsValue where
  | undefined : JsValue
  | null : JsValue
  | bool (b : Bool) : JsValue
  | num (x : JsNum) : JsValue
  | str (s : String) : JsValue
deriving DecidableEq

/-- JS `String.prototype.trim()`, implemented structurally over the
character list. -/
def jsTrim (s : String) : String :=
  ((s.data.dropWhile Char.isWhitespace).reverse.dropWhile Char.isWhitespace).reverse.asString

/-- ASCII lowercasing of one character. -/
def charLowerA (c : Char) : Char :=
  if 'A' ≤ c ∧ c ≤ 'Z' then Char.ofNat (c.toNat + 32) else c

/-- JS `String.prototype.toLowerCase()` for ASCII strings, implemented
structurally over the character list. -/
def asciiToLower (s : String) : String :=
  (s.data.map charLowerA).asString

/-- Digits of a numeric literal folded to a natural number. -/
def digitsToNat (cs : List Char) : Nat :=
  cs.foldl (fun n c => 10 * n + (c.toNat - 48)) 0

/-- Parse an unsigned decimal literal `digits[.digits]` as a rational;
`none` when the shape is not a decimal literal. -/
def parseDecimal (cs : List Char) : Option ℚ :=
  match cs.span (·.isDigit) with
  | (intPart, rest) =>
    match rest with
    | [] => if intPart = [] then none else some (digitsToNat intPart : ℚ)
    | '.' :: frac =>
      if frac.all (·.isDigit) ∧ (intPart ≠ [] ∨ frac ≠ []) then
        some ((digitsToNat intPart : ℚ) + (digitsToNat frac : ℚ) / (10 ^ frac.length))
      else none
    | _ => none

/-- JS `Number(string)` (ToNumber on strings), restricted to the forms the
repository can meet: whitespace-trimmed, empty string is 0, `Infinity`
forms, optional sign followed by a decimal literal; anything else is NaN
(hex/exponent literal forms are not modelled). -/
def strToNumber (s : String) : JsNum :=
  let t := jsTrim s
  if t = "" then .fin 0
  else if t = "Infinity" ∨ t = "+Infinity" then .inf true
  else if t = "-Infinity" then .inf false
  else
    match t.data with
    | '+' :: rest =>
      match parseDecimal rest with
      | some q => .fin q
      | none => .nan
    | '-' :: rest =>
      match parseDecimal rest with
      | some q => .fin (-q)
      | none => .nan
    | rest =>
      match parseDecimal rest with
      | some q => .fin q
      | none => .nan

/-- JS `Number(v)` conversion on the modelled value forms. -/
def jsToNumber : JsValue → JsNum
  | .undefined => .nan
  | .null => .fin 0
  | .bool b => .fin (if b then 1 else 0)
  | .num x => x
  | .str s => strToNumber s

/-- Source: `numberOr(a, fb)` returns `Number(a)` when it is finite, else
the fallback (`Number.isFinite(Number(a)) ? Number(a) : fb`). -/
def numberOr (a : JsValue) (fb : JsNum) : JsNum :=
  if (jsToNumber a).isFinite then jsToNumber a else fb

/-- Source line 355: `numberOr(radiusKm, numberOr(DEFAULT_RADIUS_KM, 100))`;
`defaultRadiusKm` is the `DEFAULT_RADIUS_KM` environment string
(its destructuring default is `"100"`). -/
def effectiveRadius (radiusKm : JsValue) (defaultRadiusKm : String) : JsNum :=
  numberOr radiusKm (numberOr (.str defaultRadiusKm) (.fin 100))

/-- A geocoding result: `{ lat, lng, formatted }`.  Latitude/longitude are
JS numbers (OSM returns them as strings, converted with `Number`). -/
structure GeoPoint where
  lat : JsNum
  lng : JsNum
  formatted : String
deriving DecidableEq

/-- The errors the pickup pipeline can throw.  `network` stands for a raw
(non-`AppError`) exception rethrown from a transport/parse failure, and
`outOfResponses` is a model artifact marking an exhausted response list of
the paginated-locations environment (unreachable under the theorems'
hypotheses). -/
inductive AppErr where
  | pincodeRequired : AppErr
  | invalidPincode (pin : String) : AppErr
  | geocodeNoResult (query : String) : AppErr
  | geocodeProviderError (provider : String) (reason : String) (query : String) : AppErr
  | shopifyGql (messages : List String) : AppErr
  | inventoryItemMissing : AppErr
  | authMissing : AppErr
  | network (e : String) : AppErr
  | outOfResponses : AppErr
deriving DecidableEq

/-- The HTTP status carried by each error (`AppError.status` in the
source; raw rethrown errors have none and the route layer serves 500). -/
def AppErr.statusCode : AppErr → Nat
  | .pincodeRequired => 400
  | .invalidPincode _ => 400
  | .geocodeNoResult _ => 422
  | .geocodeProviderError _ _ _ => 502
  | .shopifyGql _ => 502
  | .inventoryItemMissing => 404
  | .authMissing => 401
  | .network _ => 500
  | .outOfResponses => 500

/-- The two pincode-validation errors of `buildPickupResponse`
(`pincode_required` and `invalid_pincode`), the InvalidInput class. -/
def AppErr.isValidation : AppErr → Bool
  | .pincodeRequired => true
  | .invalidPincode _ => true
  | _ => false

/-- Whether an error is a `GeocodeProviderError`. -/
def AppErr.isProviderError : AppErr → Bool
  | .geocodeProviderError _ _ _ => true
  | _ => false

/-- Association-list cache lookup (`cache.has(k)` / `cache.get(k)`). -/
def cacheLookup {α : Type} (c : List (String × α)) (k : String) : Option α :=
  (c.find? (fun p => p.1 == k)).map (·.2)

/-- Association-list cache write (`cache.set(k, v)`): a later write wins
on lookup. -/
def cacheSet {α : Type} (c : List (String × α)) (k : String) (v : α) : List (String × α) :=
  (k, v) :: c

/-- Regex `^\d{6}$`. -/
def isSixDigits (s : String) : Bool :=
  s.length == 6 && s.data.all (·.isDigit)

/-- Regex `^\d{4}$`. -/
def isFourDigits (s : String) : Bool :=
  s.length == 4 && s.data.all (·.isDigit)

/-- Regex `/^\d{4}$|^\d{6}$/` used by pincode validation. -/
def isPin (s : String) : Bool :=
  isFourDigits s || isSixDigits s

/-- Parameters of a Google geocoding request (`key` plus either a
`components=postal_code:..|country:..` search or a freeform
`address`+`region` search). -/
inductive GoogleParams where
  | components (key : String) (components : String) : GoogleParams
  | address (key : String) (address : String) (region : String) : GoogleParams
deriving DecidableEq

/-- One entry of Google's `results` array (`geometry.location` and the
formatted address). -/
structure GoogleResult where
  lat : ℚ
  lng : ℚ
  formatted_address : String
deriving DecidableEq

/-- Google geocoding response body: `status`, `results`, optional
`error_message`. -/
structure GoogleResp where
  status : String
  results : List GoogleResult
  error_message : Option String
deriving DecidableEq

/-- One candidate of an OSM Nominatim response (`lat`/`lon` arrive as
strings). -/
structure OsmItem where
  lat : String
  lon : String
  display_name : String
deriving DecidableEq

/-- Environment of the two outbound geocoding services.  `Except.error`
models a network/parse throw; fixed query parameters (`format=jsonv2`,
`addressdetails=1`, `limit=1`, the client/language headers) are constants
in the source and are not part of the observable request. -/
structure GeoEnv where
  google : GoogleParams → Except String GoogleResp
  osmStructured : String → String → Except String (List OsmItem)
  osmFreeform : String → Option String → Except String (List OsmItem)

/-- An observable outbound geocoding call: Google, OSM structured
(`postalcode`, `country`), or OSM freeform (`q`, optional
`countrycodes`). -/
inductive ProviderCall where
  | google (params : GoogleParams) : ProviderCall
  | osmStructured (postalcode : String) (country : String) : ProviderCall
  | osmFreeform (q : String) (countrycodes : Option String) : ProviderCall
deriving DecidableEq

/-- The raw-geocode cache, keyed by `"geo:" ++ original`. -/
abbrev GeoCache := List (String × GeoPoint)

/-- Configuration read from `process.env` (after the destructuring
defaults `DEFAULT_RADIUS_KM = "100"`, `GEOCODER_MODE = "auto"`). -/
structure Config where
  googleMapsKey : String
  defaultRadiusKm : String
  geocoderMode : String

/-- `(GEOCODER_MODE || "auto").toLowerCase()` — the empty string is falsy
in JS and also yields `"auto"`. -/
def Config.mode (cfg : Config) : String :=
  asciiToLower (if cfg.geocoderMode = "" then "auto" else cfg.geocoderMode)

/-- The Google request parameters built by `geocode` for a given
(trimmed) query: 6-digit → postal code scoped to IN, 4-digit → postal
code scoped to AU, otherwise freeform with region hint `"in"`. -/
def googleParamsFor (cfg : Config) (original : String) : GoogleParams :=
  if isSixDigits original then
    .components cfg.googleMapsKey ("postal_code:" ++ original ++ "|country:IN")
  else if isFourDigits original then
    .components cfg.googleMapsKey ("postal_code:" ++ original ++ "|country:AU")
  else
    .address cfg.googleMapsKey original "in"

/-- Outcome of one strategy of the provider chain: a match to cache and
return, a fatal error to propagate, or fall-through to the next
strategy. -/
inductive StepOut where
  | hit (res : GeoPoint) : StepOut
  | fatal (e : AppErr) : StepOut
  | next : StepOut

/-- The suffix appended to a Google provider-error reason:
`data.error_message ? " - " + data.error_message : ""`. -/
def googleMsg : Option String → String
  | some m => " - " ++ m
  | none => ""

/-- The Google step of `geocode` (source lines 109–139): on a usable
response return its first result; otherwise, in `"google"`-only mode, a
non-OK/ empty response throws `GeocodeProviderError` and a network/parse
throw is rethrown as-is; in other modes any failure falls through. -/
def googleStep (cfg : Config) (env : GeoEnv) (mode original : String) : StepOut × List ProviderCall :=
  let params := googleParamsFor cfg original
  match env.google params with
  | .ok data =>
    if data.status = "OK" ∧ data.results ≠ [] then
      match data.results with
      | r :: _ => (.hit { lat := .fin r.lat, lng := .fin r.lng, formatted := r.formatted_address }, [.google params])
      | [] => (.next, [.google params])
    else if mode = "google" then
      (.fatal (.geocodeProviderError "google"
        ("status=" ++ data.status ++ googleMsg data.error_message) original), [.google params])
    else (.next, [.google params])
  | .error e =>
    if mode = "google" then (.fatal (.network e), [.google params])
    else (.next, [.google params])

/-- The OSM structured-search step (source lines 142–164): only for
pin-like queries, scoped to India for 6 digits and Australia for 4; any
failure or empty candidate list falls through. -/
def osmStructuredStep (env : GeoEnv) (original : String) : StepOut × List ProviderCall :=
  let country := if isSixDigits original then "India" else "Australia"
  match env.osmStructured original country with
  | .ok (it :: _) =>
    (.hit { lat := strToNumber it.lat, lng := strToNumber it.lon, formatted := it.display_name },
      [.osmStructured original country])
  | .ok [] => (.next, [.osmStructured original country])
  | .error _ => (.next, [.osmStructured original country])

/-- The OSM freeform-search step (source lines 167–187): country-suffixed
query and `countrycodes` hint for numeric input, plain query otherwise;
any failure or empty candidate list falls through. -/
def osmFreeformStep (env : GeoEnv) (original : String) : StepOut × List ProviderCall :=
  let qcc : String × Option String :=
    if isSixDigits original then (original ++ ", India", some "in")
    else if isFourDigits original then (original ++ ", Australia", some "au")
    else (original, none)
  match env.osmFreeform qcc.1 qcc.2 with
  | .ok (it :: _) =>
    (.hit { lat := strToNumber it.lat, lng := strToNumber it.lon, formatted := it.display_name },
      [.osmFreeform qcc.1 qcc.2])
  | .ok [] => (.next, [.osmFreeform qcc.1 qcc.2])
  | .error _ => (.next, [.osmFreeform qcc.1 qcc.2])

/-- Source: `geocode(address)` (lines 92–190).  Trims the query, serves a
cache hit, otherwise runs Google (unless mode is `"osm"`), then OSM
structured (for pin-like queries), then OSM freeform, caching the first
match under `"geo:" ++ original`; with every strategy exhausted it throws
`GeocodeNoResultError(original)`.  Returns (result, cache after the call,
trace of provider calls). -/
def geocode (cfg : Config) (env : GeoEnv) (cache : GeoCache) (address : String) :
    Except AppErr GeoPoint × GeoCache × List ProviderCall :=
  let original := jsTrim address
  let key := "geo:" ++ original
  match cacheLookup cache key with
  | some g => (.ok g, cache, [])
  | none =>
    let mode := cfg.mode
    let isPinLike := isSixDigits original || isFourDigits original
    let step1 := if mode ≠ "osm" then googleStep cfg env mode original else (.next, [])
    match step1 with
    | (.hit res, t1) => (.ok res, cacheSet cache key res, t1)
    | (.fatal e, t1) => (.error e, cache, t1)
    | (.next, t1) =>
      let step2 := if isPinLike then osmStructuredStep env original else (.next, [])
      match step2 with
      | (.hit res, t2) => (.ok res, cacheSet cache key res, t1 ++ t2)
      | (.fatal e, t2) => (.error e, cache, t1 ++ t2)
      | (.next, t2) =>
        match osmFreeformStep env original with
        | (.hit res, t3) => (.ok res, cacheSet cache key res, t1 ++ t2 ++ t3)
        | (.fatal e, t3) => (.error e, cache, t1 ++ t2 ++ t3)
        | (.next, t3) => (.error (.geocodeNoResult original), cache, t1 ++ t2 ++ t3)

/-- A Shopify location address (`address1 … zip`); absent fields are the
empty string (falsy, like the source's missing properties). -/
structure Addr where
  address1 : String
  address2 : String
  city : String
  province : String
  country : String
  zip : String
deriving DecidableEq

/-- A node of the Shopify `locations` collection. -/
structure ShopLocation where
  id : String
  name : String
  isActive : Bool
  fulfillsOnlineOrders : Bool
  address : Addr
deriving DecidableEq

/-- One edge of a paginated `locations` page. -/
structure LocEdge where
  cursor : String
  node : ShopLocation
deriving DecidableEq

/-- One GraphQL response page for the `locations` query: reported
`errors`, the `edges`, and `pageInfo.hasNextPage`. -/
structure LocPage where
  errors : List String
  edges : List LocEdge
  hasNextPage : Bool
deriving DecidableEq

/-- The `productVariant → inventoryItem` GraphQL response. -/
structure InvItemResp where
  errors : List String
  inventoryItemId : Option String
deriving DecidableEq

/-- A named quantity of an inventory level. -/
structure NamedQty where
  name : String
  quantity : Int
deriving DecidableEq

/-- One `inventoryLevels` edge: its named quantities and its location
id. -/
structure InvLevel where
  quantities : List NamedQty
  locationId : String
deriving DecidableEq

/-- The `inventoryItem → inventoryLevels` GraphQL response. -/
structure LevelsResp where
  errors : List String
  edges : List InvLevel
deriving DecidableEq

/-- A latitude/longitude pair of JS numbers. -/
structure LatLng where
  lat : JsNum
  lng : JsNum
deriving DecidableEq

/-- Environment of the Shopify GraphQL transport and of the
floating-point distance computation.  `pages` is the sequence of
responses the server gives to the successive paginated `locations`
requests; `dist` models `Number(haversineKm(a, b).toFixed(2))` as a JS
number: NaN when a coordinate is NaN (e.g. an unparsable OSM `lat`/`lon`
string converted with `Number`), a rounded value otherwise. -/
structure PickupEnv where
  geo : GeoEnv
  pages : List LocPage
  invItem : String → Except String InvItemResp
  levels : String → Except String LevelsResp
  dist : LatLng → LatLng → JsNum

/-- The pagination loop of `fetchShopifyLocations` (source lines
243–253): each iteration consumes the next server response, fails on a
GraphQL error array, keeps the active nodes, records the request's
`(first, after)` pair, and continues while `hasNextPage`; an exhausted
response list is the `outOfResponses` model artifact. -/
def fetchLoop : List LocPage → List ShopLocation → List (Nat × Option String) → Option String →
    Except AppErr (List ShopLocation × List (Nat × Option String))
  | [], _, _, _ => .error .outOfResponses
  | p :: rest, acc, trace, cursor =>
    if p.errors ≠ [] then .error (.shopifyGql p.errors)
    else
      let acc2 := acc ++ (p.edges.map (·.node)).filter (·.isActive)
      let trace2 := trace ++ [(100, cursor)]
      let cursor2 := (p.edges.getLast?).map (·.cursor)
      if p.hasNextPage then fetchLoop rest acc2 trace2 cursor2
      else .ok (acc2, trace2)

/-- The Shopify locations-list cache, keyed by `"locations:" ++ shop`. -/
abbrev LocListCache := List (String × List ShopLocation)

/-- Source: `fetchShopifyLocations(gql, shop)` (lines 217–257):
cache-first; on a miss, pages through the cursor-paginated `locations`
collection with `first: 100`, retaining only `isActive` nodes (the
`fulfillsOnlineOrders` check is commented out), then caches the full
list.  Returns (result, cache after the call, request trace). -/
def fetchShopifyLocations (env : PickupEnv) (cache : LocListCache) (shop : String) :
    Except AppErr (List ShopLocation) × LocListCache × List (Nat × Option String) :=
  let cacheKey := "locations:" ++ shop
  match cacheLookup cache cacheKey with
  | some locs => (.ok locs, cache, [])
  | none =>
    match fetchLoop env.pages [] [] none with
    | .error e => (.error e, cache, [])
    | .ok (locs, trace) => (.ok locs, cacheSet cache cacheKey locs, trace)

/-- Source: `getInventoryItemIdForVariant(gql, variantIdOrGid)` (lines
259–279): normalizes to a `gid://shopify/ProductVariant/` global id,
fails on GraphQL errors, and fails with the 404 `inventory_item_missing`
error when no inventory item id comes back. -/
def getInventoryItemIdForVariant (env : PickupEnv) (variantIdOrGid : String) :
    Except AppErr String :=
  let gid := if List.isPrefixOf "gid://".data variantIdOrGid.data then variantIdOrGid
    else "gid://shopify/ProductVariant/" ++ variantIdOrGid
  match env.invItem gid with
  | .error e => .error (.network e)
  | .ok resp =>
    if resp.errors ≠ [] then .error (.shopifyGql resp.errors)
    else
      match resp.inventoryItemId with
      | none => .error .inventoryItemMissing
      | some id => .ok id

/-- JS `Map.set` on an association list: the newest write wins on
lookup. -/
def mapSet (m : List (String × Int)) (k : String) (v : Int) : List (String × Int) :=
  (k, v) :: m

/-- Source: `getInventoryByLocation(gql, invItemGid)` (lines 281–307):
fails on GraphQL errors, else builds the location-id → quantity map from
the `available` named quantity of each level, defaulting to 0 when that
named quantity is absent. -/
def getInventoryByLocation (env : PickupEnv) (invItemGid : String) :
    Except AppErr (List (String × Int)) :=
  match env.levels invItemGid with
  | .error e => .error (.network e)
  | .ok resp =>
    if resp.errors ≠ [] then .error (.shopifyGql resp.errors)
    else
      .ok (resp.edges.foldl (fun m lv =>
        match lv.quantities.find? (fun q => q.name == "available") with
        | some q => mapSet m lv.locationId q.quantity
        | none => mapSet m lv.locationId 0) [])

/-- The location-coordinate cache, keyed by `"loc:" ++ loc.id`. -/
abbrev LocGeoCache := List (String × GeoPoint)

/-- The sentinel stored and returned when a location's geocoding fails
entirely: `{ lat: 0, lng: 0, formatted: "Geocode failed" }`. -/
def failSentinel : GeoPoint :=
  { lat := .fin 0, lng := .fin 0, formatted := "Geocode failed" }

/-- The composed free-text address of a location: the six address fields
with falsy (empty) parts skipped, joined with `", "`. -/
def fullAddrOf (a : Addr) : String :=
  String.intercalate ", "
    (([a.address1, a.address2, a.city, a.province, a.country, a.zip]).filter (· ≠ ""))

/-- Source: `geocodeShopifyLocation(loc)` (lines 309–334): cache-first by
location id; otherwise geocode the composed address, on failure retry
with the zip alone when present, and on total failure cache and return
the `failSentinel`.  Returns (point, location cache, raw-geocode cache,
provider-call trace). -/
def geocodeShopifyLocation (cfg : Config) (env : PickupEnv) (lc : LocGeoCache) (gc : GeoCache)
    (loc : ShopLocation) : GeoPoint × LocGeoCache × GeoCache × List ProviderCall :=
  let key := "loc:" ++ loc.id
  match cacheLookup lc key with
  | some g => (g, lc, gc, [])
  | none =>
    match geocode cfg env.geo gc (fullAddrOf loc.address) with
    | (.ok g, gc2, t1) => (g, cacheSet lc key g, gc2, t1)
    | (.error _, gc2, t1) =>
      if loc.address.zip ≠ "" then
        match geocode cfg env.geo gc2 loc.address.zip with
        | (.ok g2, gc3, t2) => (g2, cacheSet lc key g2, gc3, t1 ++ t2)
        | (.error _, gc3, t2) => (failSentinel, cacheSet lc key failSentinel, gc3, t1 ++ t2)
      else (failSentinel, cacheSet lc key failSentinel, gc2, t1)

/-- A location's address merged with the geocoder's formatted string
(`{ ...loc.address, formatted: g.formatted }`). -/
structure EnrichedAddress where
  address1 : String
  address2 : String
  city : String
  province : String
  country : String
  zip : String
  formatted : String
deriving DecidableEq

/-- One output unit of the resolver. -/
structure Enriched where
  locationId : String
  name : String
  address : EnrichedAddress
  coordinates : LatLng
  distanceKm : JsNum
  available : Option Int
  status : String
deriving DecidableEq

/-- The JS sort comparator `(a, b) => a.distanceKm - b.distanceKm` as a
placement test: `a` stays before `b` when the comparator is `≤ 0`, i.e.
`a.distanceKm <= b.distanceKm` in JS semantics.  (The comparator's NaN
case is unreachable in the sorted lists: a NaN distance matches neither
partition filter.) -/
def distCmpLe (a b : Enriched) : Bool :=
  JsNum.jsLe a.distanceKm b.distanceKm

/-- The sortedness relation of the output lists: ascending by
`distanceKm` under JS `<=`. -/
def distLe (a b : Enriched) : Prop :=
  distCmpLe a b = true

/-- Stable insertion with a Bool comparator (an element is inserted
after every element it does not strictly precede), mirroring a stable
JS `Array.prototype.sort`. -/
def orderedInsertB {α : Type} (le : α → α → Bool) (a : α) : List α → List α
  | [] => [a]
  | b :: l => if le a b then a :: b :: l else b :: orderedInsertB le a l

/-- Stable insertion sort with a Bool comparator, modelling the stable
JS sort of source lines 392 and 395. -/
def insertionSortB {α : Type} (le : α → α → Bool) : List α → List α
  | [] => []
  | b :: l => orderedInsertB le b (insertionSortB le l)

/-- The per-location output record built at source lines 371–385:
distance from the pin, inventory quantity looked up by location id
(`null` when the map has no entry), and the derived status. -/
def mkEnriched (env : PickupEnv) (qtyByLoc : List (String × Int)) (pin : GeoPoint)
    (loc : ShopLocation) (g : GeoPoint) : Enriched :=
  let distanceKm := env.dist { lat := pin.lat, lng := pin.lng } { lat := g.lat, lng := g.lng }
  let qty := cacheLookup qtyByLoc loc.id
  let status := match qty with
    | none => "unknown"
    | some n => if n > 0 then "instock" else "outofstock"
  { locationId := loc.id
    name := loc.name
    address := { address1 := loc.address.address1, address2 := loc.address.address2,
                 city := loc.address.city, province := loc.address.province,
                 country := loc.address.country, zip := loc.address.zip,
                 formatted := g.formatted }
    coordinates := { lat := g.lat, lng := g.lng }
    distanceKm := distanceKm
    available := qty
    status := status }

/-- The fan-out of source lines 366–388, determinized left-to-right:
geocode each location (cache-first with per-location fallback), drop the
ones whose point is the `(0, 0)` sentinel (`g.lat === 0 && g.lng === 0`),
and build the enriched record for the rest.  Returns the surviving
records in location order plus the threaded caches. -/
def enrichAll (cfg : Config) (env : PickupEnv) (qtyByLoc : List (String × Int)) (pin : GeoPoint) :
    List ShopLocation → LocGeoCache → GeoCache → List Enriched × LocGeoCache × GeoCache
  | [], lc, gc => ([], lc, gc)
  | loc :: rest, lc, gc =>
    let r1 := geocodeShopifyLocation cfg env lc gc loc
    let g := r1.1
    let r2 := enrichAll cfg env qtyByLoc pin rest r1.2.1 r1.2.2.1
    if g.lat = .fin 0 ∧ g.lng = .fin 0 then (r2.1, r2.2)
    else (mkEnriched env qtyByLoc pin loc g :: r2.1, r2.2)

/-- The `input` block of the response (source lines 398–404). -/
structure PickupInput where
  pincode : String
  geocodedLat : JsNum
  geocodedLng : JsNum
  geocodedAddress : String
  radiusKm : ℚ
  variantId : Option String
  inventoryItemGid : Option String
deriving DecidableEq

/-- The resolver's response shape. -/
structure PickupResult where
  input : PickupInput
  inRadius : List Enriched
  outOfRadius : List Enriched
deriving DecidableEq

/-- The three module-level caches. -/
structure Caches where
  geocodeCache : GeoCache
  locationGeoCache : LocGeoCache
  shopifyLocationsCache : LocListCache
deriving DecidableEq

/-- The partition/sort/assembly of source lines 390–407: `inRadius`
keeps `distanceKm <= RADIUS`, `outOfRadius` keeps
`distanceKm > RADIUS`, both under JS comparison semantics (false on a
NaN distance, so such an entry lands in neither list), each sorted
ascending by `distanceKm` (stable JS sort, modelled by stable insertion
sort).  `RADIUS` is finite by construction of `numberOr`. -/
def assemble (pincode : String) (pin : GeoPoint) (RADIUS : ℚ) (variantId : Option String)
    (invItemGid : Option String) (enriched : List Enriched) : PickupResult :=
  { input := { pincode := pincode, geocodedLat := pin.lat, geocodedLng := pin.lng,
               geocodedAddress := pin.formatted, radiusKm := RADIUS,
               variantId := variantId, inventoryItemGid := invItemGid }
    inRadius :=
      insertionSortB distCmpLe (enriched.filter (fun x => JsNum.jsLe x.distanceKm (.fin RADIUS)))
    outOfRadius :=
      insertionSortB distCmpLe
        (enriched.filter (fun x => JsNum.jsGt x.distanceKm (.fin RADIUS))) }

/-- The inventory phase of source lines 359–364: skipped for a falsy
`variantId` (absent or empty), otherwise variant → inventory item →
per-location quantities. -/
def resolveInventory (env : PickupEnv) (variantId : Option String) :
    Except AppErr (Option String × List (String × Int)) :=
  match variantId with
  | none => .ok (none, [])
  | some v =>
    if v = "" then .ok (none, [])
    else
      match getInventoryItemIdForVariant env v with
      | .error e => .error e
      | .ok gid =>
        match getInventoryByLocation env gid with
        | .error e => .error e
        | .ok m => .ok (some gid, m)

/-- The post-validation body of `buildPickupResponse` (source lines
355–407): effective radius, pincode geocoding, location fetch, optional
inventory, per-location enrichment and final assembly, threading the
module caches. -/
def pickupResolve (cfg : Config) (env : PickupEnv) (st : Caches) (pincode : String)
    (variantId : Option String) (radiusKm : JsValue) (shop : String) :
    Except AppErr PickupResult × Caches :=
  let RADIUS := (effectiveRadius radiusKm cfg.defaultRadiusKm).ratValue
  match geocode cfg env.geo st.geocodeCache pincode with
  | (.error e, gc2, _) => (.error e, { st with geocodeCache := gc2 })
  | (.ok pin, gc2, _) =>
    match fetchShopifyLocations env st.shopifyLocationsCache shop with
    | (.error e, sc2, _) =>
      (.error e, { st with geocodeCache := gc2, shopifyLocationsCache := sc2 })
    | (.ok locs, sc2, _) =>
      match resolveInventory env variantId with
      | .error e =>
        (.error e, { st with geocodeCache := gc2, shopifyLocationsCache := sc2 })
      | .ok (invItemGid, qtyByLoc) =>
        let r := enrichAll cfg env qtyByLoc pin locs st.locationGeoCache gc2
        (.ok (assemble pincode pin RADIUS variantId invItemGid r.1),
          { geocodeCache := r.2.2, locationGeoCache := r.2.1, shopifyLocationsCache := sc2 })

/-- Source: `buildPickupResponse({ pincode, variantId, radiusKm, gql,
shop })` (lines 336–408).  A falsy `pincode` throws the 400
`pincode_required` error; a trimmed value that is not exactly 4 or 6
digits throws the 400 `InvalidPincodeError`; otherwise resolution
proceeds. -/
def buildPickupResponse (cfg : Config) (env : PickupEnv) (st : Caches) (pincode : Option String)
    (variantId : Option String) (radiusKm : JsValue) (shop : String) :
    Except AppErr PickupResult × Caches :=
  match pincode with
  | none => (.error .pincodeRequired, st)
  | some s =>
    if s = "" then (.error .pincodeRequired, st)
    else if ¬ isPin (jsTrim s) then (.error (.invalidPincode s), st)
    else pickupResolve cfg env st s variantId radiusKm shop

/-- The list of successfully-geocoded (non-sentinel) enriched locations a
request resolves to, recomputed along the same pipeline; `none` when the
request fails before enrichment. -/
def resolvedEnriched (cfg : Config) (env : PickupEnv) (st : Caches) (pincode : Option String)
    (variantId : Option String) (shop : String) : Option (List Enriched) :=
  match pincode with
  | none => none
  | some s =>
    if s = "" then none
    else if ¬ isPin (jsTrim s) then none
    else
      match geocode cfg env.geo st.geocodeCache s with
      | (.error _, _, _) => none
      | (.ok pin, gc2, _) =>
        match fetchShopifyLocations env st.shopifyLocationsCache shop with
        | (.error _, _, _) => none
        | (.ok locs, _, _) =>
          match resolveInventory env variantId with
          | .error _ => none
          | .ok (_, qtyByLoc) =>
            some (enrichAll cfg env qtyByLoc pin locs st.locationGeoCache gc2).1

/-- Degrees to radians over the reals (`toRad` in the source). -/
noncomputable def toRadR (d : ℝ) : ℝ :=
  d * Real.pi / 180

/-- A coordinate pair for the distance utility, over the reals. -/
structure RPoint where
  lat : ℝ
  lng : ℝ

/-- Source: `haversineKm(a, b)` (lines 68–78), the haversine great-circle
distance with Earth radius `R = 6371` km, modelled over the real numbers
(the float computation idealized to exact real arithmetic). -/
noncomputable def haversineKm (a b : RPoint) : ℝ :=
  let R : ℝ := 6371
  let dLat := toRadR (b.lat - a.lat)
  let dLng := toRadR (b.lng - a.lng)
  let lat1 := toRadR a.lat
  let lat2 := toRadR b.lat
  let h := Real.sin (dLat / 2) ^ 2 +
    Real.cos lat1 * Real.cos lat2 * Real.sin (dLng / 2) ^ 2
  2 * R * Real.arcsin (Real.sqrt h)

/-- Whether a geocode result is a thrown error. -/
def geoFailed (r : Except AppErr GeoPoint) : Bool :=
  match r with
  | .error _ => true
  | .ok _ => false

theorem cacheLookup_set_self {α : Type} (c : List (String × α)) (k : String) (v : α) :
    cacheLookup (cacheSet c k v) k = some v := by
  simp [cacheLookup, cacheSet]

theorem googleStep_fatal_class (cfg : Config) (env : GeoEnv) (mode original : String)
    (e : AppErr) (t : List ProviderCall) (h : googleStep cfg env mode original = (.fatal e, t)) :
    e.isValidation = false := by
  unfold googleStep at h
  dsimp only at h
  split at h
  · split at h
    · split at h <;> simp_all
    · split at h
      · injection h with h1 h2
        injection h1 with h1e
        subst h1e
        rfl
      · simp_all
  · split at h
    · injection h with h1 h2
      injection h1 with h1e
      subst h1e
      rfl
    · simp_all

theorem geocode_error_cache (cfg : Config) (env : GeoEnv) (cache : GeoCache) (s : String)
    (e : AppErr) (c2 : GeoCache) (t : List ProviderCall)
    (h : geocode cfg env cache s = (.error e, c2, t)) : c2 = cache := by
  unfold geocode at h
  dsimp only at h
  split at h
  · simp_all
  · split at h <;> try simp_all
    split at h <;> try simp_all
    split at h <;> simp_all

theorem locGeo_total_failure (cfg : Config) (env : PickupEnv) (lc : LocGeoCache) (gc : GeoCache)
    (loc : ShopLocation)
    (hmiss : cacheLookup lc ("loc:" ++ loc.id) = none)
    (hfull : geoFailed (geocode cfg env.geo gc (fullAddrOf loc.address)).1 = true)
    (hzip : loc.address.zip ≠ "" → geoFailed (geocode cfg env.geo gc loc.address.zip).1 = true) :
    (geocodeShopifyLocation cfg env lc gc loc).1 = failSentinel ∧
    cacheLookup (geocodeShopifyLocation cfg env lc gc loc).2.1 ("loc:" ++ loc.id) =
      some failSentinel := by
  unfold geocodeShopifyLocation
  dsimp only
  simp only [hmiss]
  rcases hg : geocode cfg env.geo gc (fullAddrOf loc.address) with ⟨r, gc2, t1⟩
  cases r with
  | ok g =>
    rw [hg] at hfull
    simp [geoFailed] at hfull
  | error e1 =>
    have hgc2 : gc2 = gc := geocode_error_cache cfg env.geo gc _ e1 gc2 t1 hg
    subst hgc2
    dsimp only
    by_cases hz : loc.address.zip = ""
    · rw [if_neg (not_not_intro hz)]
      exact ⟨rfl, cacheLookup_set_self lc _ failSentinel⟩
    · rw [if_pos hz]
      rcases hg2 : geocode cfg env.geo gc2 loc.address.zip with ⟨r2, gc3, t2⟩
      cases r2 with
      | ok g2 =>
        have hc := hzip hz
        rw [hg2] at hc
        simp [geoFailed] at hc
      | error e2 =>
        exact ⟨rfl, cacheLookup_set_self lc _ failSentinel⟩

theorem locGeo_cached (cfg : Config) (env : PickupEnv) (lc : LocGeoCache) (gc : GeoCache)
    (loc : ShopLocation) (g : GeoPoint)
    (hhit : cacheLookup lc ("loc:" ++ loc.id) = some g) :
    geocodeShopifyLocation cfg env lc gc loc = (g, lc, gc, []) := by
  unfold geocodeShopifyLocation
  simp [hhit]

theorem enrichAll_mem (cfg : Config) (env : PickupEnv) (qm : List (String × Int))
    (pin : GeoPoint) :
    ∀ (locs : List ShopLocation) (lc : LocGeoCache) (gc : GeoCache) (x : Enriched),
      x ∈ (enrichAll cfg env qm pin locs lc gc).1 →
      ∃ loc g, ¬(g.lat = .fin 0 ∧ g.lng = .fin 0) ∧ x = mkEnriched env qm pin loc g := by
  intro locs
  induction locs with
  | nil =>
    intro lc gc x hx
    simp [enrichAll] at hx
  | cons loc rest ih =>
    intro lc gc x hx
    rw [enrichAll] at hx
    split at hx
    · exact ih _ _ x hx
    · rcases List.mem_cons.mp hx with hx | hx
      · exact ⟨loc, _, by assumption, hx⟩
      · exact ih _ _ x hx

theorem mkEnriched_spec (env : PickupEnv) (qm : List (String × Int)) (pin : GeoPoint)
    (loc : ShopLocation) (g : GeoPoint) :
    (mkEnriched env qm pin loc g).coordinates = ⟨g.lat, g.lng⟩ ∧
    (mkEnriched env qm pin loc g).available = cacheLookup qm loc.id ∧
    (((mkEnriched env qm pin loc g).status = "unknown") ↔
      (mkEnriched env qm pin loc g).available = none) ∧
    (((mkEnriched env qm pin loc g).status = "instock") ↔
      ∃ n, (mkEnriched env qm pin loc g).available = some n ∧ 0 < n) ∧
    (((mkEnriched env qm pin loc g).status = "outofstock") ↔
      ∃ n, (mkEnriched env qm pin loc g).available = some n ∧ n ≤ 0) := by
  cases hq : cacheLookup qm loc.id with
  | none => simp [mkEnriched, hq]
  | some n =>
    by_cases hn : n > 0
    · simp [mkEnriched, hq, hn]
      try omega
    · simp [mkEnriched, hq, hn]
      try omega

theorem perm_orderedInsertB {α : Type} (le : α → α → Bool) (a : α) :
    ∀ l : List α, (orderedInsertB le a l).Perm (a :: l) := by
  intro l
  induction l with
  | nil => exact List.Perm.refl _
  | cons b l ih =>
    rw [orderedInsertB]
    split
    · exact List.Perm.refl _
    · exact (ih.cons b).trans (List.Perm.swap a b l)

theorem perm_insertionSortB {α : Type} (le : α → α → Bool) :
    ∀ l : List α, (insertionSortB le l).Perm l := by
  intro l
  induction l with
  | nil => exact List.Perm.refl _
  | cons b l ih =>
    rw [insertionSortB]
    exact (perm_orderedInsertB le b (insertionSortB le l)).trans (ih.cons b)

theorem pairwise_orderedInsertB {α : Type} {le : α → α → Bool} {P : α → Prop}
    (htot : ∀ x y, P x → P y → le x y = false → le y x = true)
    (htrans : ∀ x y z, P x → P y → P z → le x y = true → le y z = true → le x z = true)
    (a : α) (ha : P a) :
    ∀ l : List α, (∀ x ∈ l, P x) → l.Pairwise (fun x y => le x y = true) →
      (orderedInsertB le a l).Pairwise (fun x y => le x y = true) := by
  intro l
  induction l with
  | nil =>
    intro _ _
    simp [orderedInsertB]
  | cons b l ih =>
    intro hP hp
    rw [orderedInsertB]
    split
    · rename_i hab
      refine List.Pairwise.cons ?_ hp
      intro x hx
      rcases List.mem_cons.mp hx with rfl | hx2
      · exact hab
      · exact htrans a b x ha (hP b (List.mem_cons_self b l))
          (hP x (List.mem_cons_of_mem b hx2)) hab ((List.pairwise_cons.mp hp).1 x hx2)
    · rename_i hab
      have hab2 : le a b = false := by
        cases h : le a b
        · rfl
        · exact absurd h hab
      have hba : le b a = true := htot a b ha (hP b (List.mem_cons_self b l)) hab2
      refine List.Pairwise.cons ?_ ?_
      · intro x hx
        have hx2 := (perm_orderedInsertB le a l).mem_iff.mp hx
        rcases List.mem_cons.mp hx2 with rfl | hx3
        · exact hba
        · exact (List.pairwise_cons.mp hp).1 x hx3
      · exact ih (fun x hx => hP x (List.mem_cons_of_mem b hx)) (List.pairwise_cons.mp hp).2

theorem pairwise_insertionSortB {α : Type} {le : α → α → Bool} {P : α → Prop}
    (htot : ∀ x y, P x → P y → le x y = false → le y x = true)
    (htrans : ∀ x y z, P x → P y → P z → le x y = true → le y z = true → le x z = true) :
    ∀ l : List α, (∀ x ∈ l, P x) →
      (insertionSortB le l).Pairwise (fun x y => le x y = true) := by
  intro l
  induction l with
  | nil =>
    intro _
    simp [insertionSortB]
  | cons b l ih =>
    intro hP
    rw [insertionSortB]
    exact pairwise_orderedInsertB htot htrans b (hP b (List.mem_cons_self b l))
      (insertionSortB le l)
      (fun x hx => hP x (List.mem_cons_of_mem b ((perm_insertionSortB le l).mem_iff.mp hx)))
      (ih (fun x hx => hP x (List.mem_cons_of_mem b hx)))

theorem jsLe_finR_not_nan (d : JsNum) (R : ℚ) (h : JsNum.jsLe d (.fin R) = true) :
    d.isNaN = false := by
  cases d <;> simp_all [JsNum.jsLe, JsNum.isNaN]

theorem jsGt_finR_not_nan (d : JsNum) (R : ℚ) (h : JsNum.jsGt d (.fin R) = true) :
    d.isNaN = false := by
  cases d <;> simp_all [JsNum.jsGt, JsNum.jsLt, JsNum.isNaN]

theorem jsGt_eq_not_jsLe (d : JsNum) (R : ℚ) (hd : d.isNaN = false) :
    JsNum.jsGt d (.fin R) = !JsNum.jsLe d (.fin R) := by
  cases d with
  | nan => simp [JsNum.isNaN] at hd
  | inf pb => cases pb <;> simp [JsNum.jsGt, JsNum.jsLt, JsNum.jsLe]
  | fin a =>
    simp only [JsNum.jsGt, JsNum.jsLt, JsNum.jsLe]
    by_cases h : a ≤ R
    · simp [h, not_lt.mpr h]
    · simp [h, not_le.mp h]

theorem jsLe_total_not_nan (a b : JsNum) (ha : a.isNaN = false) (hb : b.isNaN = false)
    (h : JsNum.jsLe a b = false) : JsNum.jsLe b a = true := by
  cases a with
  | nan => simp [JsNum.isNaN] at ha
  | inf pa =>
    cases b with
    | nan => simp [JsNum.isNaN] at hb
    | inf pb => cases pa <;> cases pb <;> simp_all [JsNum.jsLe]
    | fin qb => cases pa <;> simp_all [JsNum.jsLe]
  | fin qa =>
    cases b with
    | nan => simp [JsNum.isNaN] at hb
    | inf pb => cases pb <;> simp_all [JsNum.jsLe]
    | fin qb =>
      simp only [JsNum.jsLe, decide_eq_false_iff_not] at h
      simp only [JsNum.jsLe, decide_eq_true_eq]
      exact (not_le.mp h).le

theorem jsLe_trans_not_nan (a b c : JsNum) (ha : a.isNaN = false) (hb : b.isNaN = false)
    (hc : c.isNaN = false) (h1 : JsNum.jsLe a b = true) (h2 : JsNum.jsLe b c = true) :
    JsNum.jsLe a c = true := by
  cases a with
  | nan => simp [JsNum.isNaN] at ha
  | inf pa =>
    cases b with
    | nan => simp [JsNum.isNaN] at hb
    | inf pb =>
      cases c with
      | nan => simp [JsNum.isNaN] at hc
      | inf pc => cases pa <;> cases pb <;> cases pc <;> simp_all [JsNum.jsLe]
      | fin qc => cases pa <;> cases pb <;> simp_all [JsNum.jsLe]
    | fin qb =>
      cases c with
      | nan => simp [JsNum.isNaN] at hc
      | inf pc => cases pa <;> cases pc <;> simp_all [JsNum.jsLe]
      | fin qc => cases pa <;> simp_all [JsNum.jsLe]
  | fin qa =>
    cases b with
    | nan => simp [JsNum.isNaN] at hb
    | inf pb =>
      cases c with
      | nan => simp [JsNum.isNaN] at hc
      | inf pc => cases pb <;> cases pc <;> simp_all [JsNum.jsLe]
      | fin qc => cases pb <;> simp_all [JsNum.jsLe]
    | fin qb =>
      cases c with
      | nan => simp [JsNum.isNaN] at hc
      | inf pc => cases pc <;> simp_all [JsNum.jsLe]
      | fin qc =>
        simp only [JsNum.jsLe, decide_eq_true_eq] at h1 h2 ⊢
        exact le_trans h1 h2

theorem assemble_spec (ps : String) (pin : GeoPoint) (R : ℚ) (v gid : Option String)
    (enr : List Enriched) :
    (∀ x ∈ (assemble ps pin R v gid enr).inRadius,
      JsNum.jsLe x.distanceKm (.fin R) = true) ∧
    (∀ x ∈ (assemble ps pin R v gid enr).outOfRadius,
      JsNum.jsGt x.distanceKm (.fin R) = true) ∧
    (assemble ps pin R v gid enr).inRadius.Sorted distLe ∧
    (assemble ps pin R v gid enr).outOfRadius.Sorted distLe ∧
    ((assemble ps pin R v gid enr).inRadius ++ (assemble ps pin R v gid enr).outOfRadius).Perm
      (enr.filter (fun x => !x.distanceKm.isNaN)) := by
  dsimp only [assemble]
  have htot : ∀ x y : Enriched, x.distanceKm.isNaN = false → y.distanceKm.isNaN = false →
      distCmpLe x y = false → distCmpLe y x = true :=
    fun x y hx hy h => jsLe_total_not_nan _ _ hx hy h
  have htrans : ∀ x y z : Enriched, x.distanceKm.isNaN = false → y.distanceKm.isNaN = false →
      z.distanceKm.isNaN = false → distCmpLe x y = true → distCmpLe y z = true →
      distCmpLe x z = true :=
    fun x y z hx hy hz h1 h2 => jsLe_trans_not_nan _ _ _ hx hy hz h1 h2
  refine ⟨?_, ?_, ?_, ?_, ?_⟩
  · intro x hx
    have hm := (perm_insertionSortB distCmpLe _).mem_iff.mp hx
    exact (List.mem_filter.1 hm).2
  · intro x hx
    have hm := (perm_insertionSortB distCmpLe _).mem_iff.mp hx
    exact (List.mem_filter.1 hm).2
  · exact pairwise_insertionSortB htot htrans _
      (fun x hx => jsLe_finR_not_nan _ R (List.mem_filter.1 hx).2)
  · exact pairwise_insertionSortB htot htrans _
      (fun x hx => jsGt_finR_not_nan _ R (List.mem_filter.1 hx).2)
  · have h1 := (perm_insertionSortB distCmpLe
        (enr.filter (fun x => JsNum.jsLe x.distanceKm (.fin R)))).append
      (perm_insertionSortB distCmpLe
        (enr.filter (fun x => JsNum.jsGt x.distanceKm (.fin R))))
    refine h1.trans ?_
    have hp2 : enr.filter (fun x => JsNum.jsLe x.distanceKm (.fin R)) =
        (enr.filter (fun x => !x.distanceKm.isNaN)).filter
          (fun x => JsNum.jsLe x.distanceKm (.fin R)) := by
      rw [List.filter_filter]
      refine (List.filter_congr ?_).symm
      intro a _
      cases h : JsNum.jsLe a.distanceKm (.fin R)
      · simp
      · simp [jsLe_finR_not_nan _ R h]
    have hq2 : enr.filter (fun x => JsNum.jsGt x.distanceKm (.fin R)) =
        (enr.filter (fun x => !x.distanceKm.isNaN)).filter
          (fun x => JsNum.jsGt x.distanceKm (.fin R)) := by
      rw [List.filter_filter]
      refine (List.filter_congr ?_).symm
      intro a _
      cases h : JsNum.jsGt a.distanceKm (.fin R)
      · simp
      · simp [jsGt_finR_not_nan _ R h]
    have hq3 : (enr.filter (fun x => !x.distanceKm.isNaN)).filter
          (fun x => JsNum.jsGt x.distanceKm (.fin R)) =
        (enr.filter (fun x => !x.distanceKm.isNaN)).filter
          (fun x => !(JsNum.jsLe x.distanceKm (.fin R))) := by
      refine List.filter_congr ?_
      intro a hmem
      have hnnA : a.distanceKm.isNaN = false := by
        have hb := (List.mem_filter.1 hmem).2
        simpa using hb
      exact jsGt_eq_not_jsLe a.distanceKm R hnnA
    rw [hp2, hq2, hq3]
    exact List.filter_append_perm (fun x => JsNum.jsLe x.distanceKm (.fin R))
      (enr.filter (fun x => !x.distanceKm.isNaN))

theorem buildPickup_ok_shape (cfg : Config) (env : PickupEnv) (st : Caches)
    (pincode variantId : Option String) (radiusKm : JsValue) (shop : String)
    (res : PickupResult) (st2 : Caches)
    (h : buildPickupResponse cfg env st pincode variantId radiusKm shop = (.ok res, st2)) :
    ∃ s pin qm gid enr,
      pincode = some s ∧
      res = assemble s pin (effectiveRadius radiusKm cfg.defaultRadiusKm).ratValue
        variantId gid enr ∧
      resolvedEnriched cfg env st pincode variantId shop = some enr ∧
      (∀ x ∈ enr, ∃ loc g, ¬(g.lat = .fin 0 ∧ g.lng = .fin 0) ∧
        x = mkEnriched env qm pin loc g) ∧
      (variantId = none → qm = []) := by
  cases pincode with
  | none => simp [buildPickupResponse] at h
  | some s =>
    by_cases hs : s = ""
    · simp [buildPickupResponse, hs] at h
    · by_cases hp : isPin (jsTrim s)
      · rw [buildPickupResponse] at h
        rw [if_neg hs, if_neg (not_not_intro hp)] at h
        rw [pickupResolve] at h
        dsimp only at h
        rcases hg : geocode cfg env.geo st.geocodeCache s with ⟨rg, gc2, tg⟩
        rw [hg] at h
        cases rg with
        | error e => simp at h
        | ok pin =>
          rcases hf : fetchShopifyLocations env st.shopifyLocationsCache shop with ⟨rf, sc2, tf⟩
          rw [hf] at h
          cases rf with
          | error e => simp at h
          | ok locs =>
            rcases hi : resolveInventory env variantId with e | ⟨gid, qm⟩
            · rw [hi] at h
              simp at h
            · rw [hi] at h
              dsimp only at h
              have hres : res =
                  assemble s pin (effectiveRadius radiusKm cfg.defaultRadiusKm).ratValue
                    variantId gid
                    (enrichAll cfg env qm pin locs st.locationGeoCache gc2).1 := by
                have hfst := congrArg Prod.fst h
                simp at hfst
                exact hfst.symm
              refine ⟨s, pin, qm, gid,
                (enrichAll cfg env qm pin locs st.locationGeoCache gc2).1,
                rfl, hres, ?_, ?_, ?_⟩
              · simp [resolvedEnriched, hs, hp, hg, hf, hi]
              · intro x hx
                exact enrichAll_mem cfg env qm pin locs st.locationGeoCache gc2 x hx
              · intro hv
                subst hv
                have hnone : resolveInventory env none = .ok (none, []) := rfl
                rw [hnone] at hi
                injection hi with hi2
                injection hi2 with h1 h2
                exact h2.symm
      · rw [buildPickupResponse] at h
        rw [if_neg hs, if_pos hp] at h
        simp at h

theorem geocode_error_class (cfg : Config) (env : GeoEnv) (cache : GeoCache) (s : String)
    (e : AppErr) (c2 : GeoCache) (t : List ProviderCall)
    (h : geocode cfg env cache s = (.error e, c2, t)) : e.isValidation = false := by
  rw [geocode] at h
  dsimp only at h
  rcases hl : cacheLookup cache ("geo:" ++ jsTrim s) with _ | g
  · rw [hl] at h
    rcases h1 : (if cfg.mode ≠ "osm" then googleStep cfg env cfg.mode (jsTrim s)
      else (.next, [])) with ⟨o1, t1⟩
    rw [h1] at h
    cases o1 with
    | hit r1 => simp at h
    | fatal e1 =>
      have he : e1 = e := by
        simp at h
        exact h.1
      subst he
      split at h1
      · exact googleStep_fatal_class cfg env cfg.mode (jsTrim s) e1 t1 h1
      · simp at h1
    | next =>
      rcases h2 : (if (isSixDigits (jsTrim s) || isFourDigits (jsTrim s)) = true then
        osmStructuredStep env (jsTrim s) else (.next, [])) with ⟨o2, t2⟩
      rw [h2] at h
      cases o2 with
      | hit r2 => simp at h
      | fatal e2 =>
        split at h2
        · rw [osmStructuredStep] at h2
          split at h2 <;> simp at h2
        · simp at h2
      | next =>
        rcases h3 : osmFreeformStep env (jsTrim s) with ⟨o3, t3⟩
        rw [h3] at h
        cases o3 with
        | hit r3 => simp at h
        | fatal e3 =>
          rw [osmFreeformStep] at h3
          split at h3 <;> simp at h3
        | next =>
          have he : AppErr.geocodeNoResult (jsTrim s) = e := by
            simp at h
            exact h.1
          rw [← he]
          rfl
  · rw [hl] at h
    simp at h

theorem fetchLoop_err_class :
    ∀ (pages : List LocPage) (acc : List ShopLocation) (trace : List (Nat × Option String))
      (cursor : Option String) (e : AppErr),
      fetchLoop pages acc trace cursor = .error e → e.isValidation = false := by
  intro pages
  induction pages with
  | nil =>
    intro acc trace cursor e h
    rw [fetchLoop] at h
    injection h with h1
    rw [← h1]
    rfl
  | cons p rest ih =>
    intro acc trace cursor e h
    rw [fetchLoop] at h
    split at h
    · injection h with h1
      rw [← h1]
      rfl
    · dsimp only at h
      split at h
      · exact ih _ _ _ e h
      · simp at h

theorem fetchShopifyLocations_err_class (env : PickupEnv) (cache : LocListCache) (shop : String)
    (e : AppErr) (c2 : LocListCache) (t : List (Nat × Option String))
    (h : fetchShopifyLocations env cache shop = (.error e, c2, t)) : e.isValidation = false := by
  rw [fetchShopifyLocations] at h
  rcases hl : cacheLookup cache ("locations:" ++ shop) with _ | locs
  · rw [hl] at h
    rcases hf : fetchLoop env.pages [] [] none with ef | ⟨locs2, tr⟩
    · rw [hf] at h
      have he : ef = e := by
        simp at h
        exact h.1
      subst he
      exact fetchLoop_err_class env.pages [] [] none ef hf
    · rw [hf] at h
      simp at h
  · rw [hl] at h
    simp at h

theorem getInventoryItemIdForVariant_err_class (env : PickupEnv) (v : String) (e : AppErr)
    (h : getInventoryItemIdForVariant env v = .error e) : e.isValidation = false := by
  rw [getInventoryItemIdForVariant] at h
  split at h
  · injection h with h1
    rw [← h1]
    rfl
  · split at h
    · injection h with h1
      rw [← h1]
      rfl
    · split at h
      · injection h with h1
        rw [← h1]
        rfl
      · simp at h

theorem getInventoryByLocation_err_class (env : PickupEnv) (gid : String) (e : AppErr)
    (h : getInventoryByLocation env gid = .error e) : e.isValidation = false := by
  rw [getInventoryByLocation] at h
  split at h
  · injection h with h1
    rw [← h1]
    rfl
  · split at h
    · injection h with h1
      rw [← h1]
      rfl
    · simp at h

theorem resolveInventory_err_class (env : PickupEnv) (variantId : Option String) (e : AppErr)
    (h : resolveInventory env variantId = .error e) : e.isValidation = false := by
  rw [resolveInventory.eq_def] at h
  split at h
  · simp at h
  · split at h
    · simp at h
    · split at h
      · injection h with h1
        rename_i heq
        rw [← h1]
        exact getInventoryItemIdForVariant_err_class env _ _ heq
      · split at h
        · injection h with h1
          rename_i heq
          rw [← h1]
          exact getInventoryByLocation_err_class env _ _ heq
        · simp at h

theorem pickupResolve_err_class (cfg : Config) (env : PickupEnv) (st : Caches) (s : String)
    (variantId : Option String) (radiusKm : JsValue) (shop : String) (e : AppErr) (st2 : Caches)
    (h : pickupResolve cfg env st s variantId radiusKm shop = (.error e, st2)) :
    e.isValidation = false := by
  rw [pickupResolve] at h
  dsimp only at h
  rcases hg : geocode cfg env.geo st.geocodeCache s with ⟨rg, gc2, tg⟩
  rw [hg] at h
  cases rg with
  | error e1 =>
    have he : e1 = e := by
      simp at h
      exact h.1
    subst he
    exact geocode_error_class cfg env.geo st.geocodeCache s e1 gc2 tg hg
  | ok pin =>
    rcases hf : fetchShopifyLocations env st.shopifyLocationsCache shop with ⟨rf, sc2, tf⟩
    rw [hf] at h
    cases rf with
    | error e1 =>
      have he : e1 = e := by
        simp at h
        exact h.1
      subst he
      exact fetchShopifyLocations_err_class env st.shopifyLocationsCache shop e1 sc2 tf hf
    | ok locs =>
      rcases hi : resolveInventory env variantId with e1 | ⟨gid, qm⟩
      · rw [hi] at h
        have he : e1 = e := by
          simp at h
          exact h.1
        subst he
        exact resolveInventory_err_class env variantId e1 hi
      · rw [hi] at h
        simp at h

/-- The pincode-validity predicate of the claims: present and exactly 4
or 6 decimal digits after trimming. -/
def pinOk : Option String → Bool
  | none => false
  | some s => isPin (jsTrim s)

/-- The nodes carried by one `locations` page. -/
def pageNodes (p : LocPage) : List ShopLocation :=
  p.edges.map (·.node)

/-- The `after` cursor the loop sends following a page: the last edge's
cursor, or null when the page had no edges. -/
def pageAfter (p : LocPage) : Option String :=
  (p.edges.getLast?).map (·.cursor)

theorem fetchLoop_spec :
    ∀ (ps : List LocPage) (plast : LocPage) (acc : List ShopLocation)
      (trace : List (Nat × Option String)) (cursor : Option String),
      (∀ p ∈ ps, p.errors = [] ∧ p.hasNextPage = true) →
      plast.errors = [] → plast.hasNextPage = false →
      fetchLoop (ps ++ [plast]) acc trace cursor =
        .ok (acc ++ (((ps ++ [plast]).map pageNodes).flatten).filter (·.isActive),
             trace ++ (100, cursor) :: ps.map (fun p => (100, pageAfter p))) := by
  intro ps
  induction ps with
  | nil =>
    intro plast acc trace cursor hps hep hnp
    rw [List.nil_append, fetchLoop, if_neg (not_not_intro hep)]
    dsimp only
    rw [if_neg ?_]
    · simp [pageNodes]
    · rw [hnp]
      exact Bool.false_ne_true
  | cons p ps ih =>
    intro plast acc trace cursor hps hep hnp
    have hp := hps p (List.mem_cons_self p ps)
    rw [List.cons_append, fetchLoop, if_neg (not_not_intro hp.1)]
    dsimp only
    rw [if_pos hp.2]
    rw [ih plast _ _ _ (fun q hq => hps q (List.mem_cons_of_mem p hq)) hep hnp]
    simp [pageNodes, pageAfter, List.filter_append]

/-- C9: `haversineKm` is a pure function of its two points (it is a Lean
function of `a`, `b` alone, over the great-circle formula with Earth
radius 6371 embedded in its definition), and for identical coordinates it
returns exactly 0 in the real-valued model. -/
theorem haversineKm_zero_of_eq (a b : RPoint) (hlat : a.lat = b.lat) (hlng : a.lng = b.lng) :
    haversineKm a b = 0 := by
  simp [haversineKm, toRadR, hlat, hlng]

/-- Witness for C9 at the concrete pair ((0,0), (0,0)). -/
theorem haversineKm_zero_of_eq_witness : haversineKm ⟨0, 0⟩ ⟨0, 0⟩ = 0 :=
  haversineKm_zero_of_eq ⟨0, 0⟩ ⟨0, 0⟩ rfl rfl

/-- C10: `numberOr(a, fb)` returns `Number(a)` exactly when that
conversion is finite, and `fb` otherwise; consequently the effective
radius of `buildPickupResponse` is `Number(radiusKm)` for `null`, the
empty string and booleans (0, 0, 0/1 respectively), and the
`DEFAULT_RADIUS_KM`/100 fallback is used exactly when `Number(radiusKm)`
is NaN or infinite (e.g. absent or a non-numeric string). -/
theorem numberOr_radius_spec :
    (∀ a fb, numberOr a fb = if (jsToNumber a).isFinite then jsToNumber a else fb) ∧
    effectiveRadius .null "100" = .fin 0 ∧
    effectiveRadius (.str "") "100" = .fin 0 ∧
    (∀ b, effectiveRadius (.bool b) "100" = .fin (if b then 1 else 0)) ∧
    effectiveRadius .undefined "100" = .fin 100 ∧
    effectiveRadius (.str "abc") "100" = .fin 100 ∧
    (∀ a d, (jsToNumber a).isFinite = true → effectiveRadius a d = jsToNumber a) ∧
    (∀ a d, (jsToNumber a).isFinite = false →
      effectiveRadius a d = numberOr (.str d) (.fin 100)) := by
  refine ⟨fun a fb => rfl, by decide, by decide, by decide, by decide, by decide, ?_, ?_⟩
  · intro a d h
    simp [effectiveRadius, numberOr, h]
  · intro a d h
    simp [effectiveRadius, numberOr, h]

/-- Witness for C10 at `radiusKm = "abc"` (fallback) and `radiusKm =
null` (finite conversion 0). -/
theorem numberOr_radius_spec_witness :
    (jsToNumber (.str "abc")).isFinite = false ∧
    effectiveRadius (.str "abc") "100" = numberOr (.str "100") (.fin 100) ∧
    (jsToNumber .null).isFinite = true ∧
    effectiveRadius .null "100" = jsToNumber .null := by
  refine ⟨by decide, ?_, by decide, ?_⟩
  · exact numberOr_radius_spec.2.2.2.2.2.2.2 (.str "abc") "100" (by decide)
  · exact numberOr_radius_spec.2.2.2.2.2.2.1 .null "100" (by decide)

/-- C1 (amended): on every successful pickup resolution, every
`inRadius` entry satisfies `distanceKm <= input.radiusKm` and every
`outOfRadius` entry `distanceKm > input.radiusKm` under JS comparison
semantics, both lists are sorted ascending by `distanceKm`, and together
they are a permutation of the successfully-geocoded enriched locations
whose `distanceKm` is a number — so each such location appears in
exactly one of the two lists, while a location whose computed
`distanceKm` is NaN (non-finite coordinates) appears in neither. -/
theorem pickup_partition_spec (cfg : Config) (env : PickupEnv) (st : Caches)
    (pincode variantId : Option String) (radiusKm : JsValue) (shop : String)
    (res : PickupResult) (st2 : Caches)
    (h : buildPickupResponse cfg env st pincode variantId radiusKm shop = (.ok res, st2)) :
    (∀ x ∈ res.inRadius, JsNum.jsLe x.distanceKm (.fin res.input.radiusKm) = true) ∧
    (∀ x ∈ res.outOfRadius, JsNum.jsGt x.distanceKm (.fin res.input.radiusKm) = true) ∧
    res.inRadius.Sorted distLe ∧
    res.outOfRadius.Sorted distLe ∧
    ∃ enr, resolvedEnriched cfg env st pincode variantId shop = some enr ∧
      (res.inRadius ++ res.outOfRadius).Perm
        (enr.filter (fun x => !x.distanceKm.isNaN)) := by
  obtain ⟨s, pin, qm, gid, enr, hsome, hres, hresolved, hmem, hq⟩ :=
    buildPickup_ok_shape cfg env st pincode variantId radiusKm shop res st2 h
  subst hres
  have ha := assemble_spec s pin ((effectiveRadius radiusKm cfg.defaultRadiusKm).ratValue)
    variantId gid enr
  exact ⟨ha.1, ha.2.1, ha.2.2.1, ha.2.2.2.1, enr, hresolved, ha.2.2.2.2⟩

/-- C2: a location whose composed-address geocoding fails and whose
zip-retry fails (or is absent) resolves to the `(0, 0)` sentinel, and no
entry of a successful response carries `(0, 0)` coordinates — sentinel
locations never appear in either output list. -/
theorem failed_geocode_excluded :
    (∀ (cfg : Config) (env : PickupEnv) (lc : LocGeoCache) (gc : GeoCache) (loc : ShopLocation),
      cacheLookup lc ("loc:" ++ loc.id) = none →
      geoFailed (geocode cfg env.geo gc (fullAddrOf loc.address)).1 = true →
      (loc.address.zip ≠ "" → geoFailed (geocode cfg env.geo gc loc.address.zip).1 = true) →
      (geocodeShopifyLocation cfg env lc gc loc).1 = failSentinel) ∧
    (∀ (cfg : Config) (env : PickupEnv) (st : Caches) (pincode variantId : Option String)
      (radiusKm : JsValue) (shop : String) (res : PickupResult) (st2 : Caches),
      buildPickupResponse cfg env st pincode variantId radiusKm shop = (.ok res, st2) →
      ∀ x ∈ res.inRadius ++ res.outOfRadius,
        ¬(x.coordinates.lat = .fin 0 ∧ x.coordinates.lng = .fin 0)) := by
  constructor
  · intro cfg env lc gc loc hmiss hfull hzip
    exact (locGeo_total_failure cfg env lc gc loc hmiss hfull hzip).1
  · intro cfg env st pincode variantId radiusKm shop res st2 h x hx
    obtain ⟨s, pin, qm, gid, enr, hsome, hres, hresolved, hmem, hq⟩ :=
      buildPickup_ok_shape cfg env st pincode variantId radiusKm shop res st2 h
    subst hres
    have ha := assemble_spec s pin ((effectiveRadius radiusKm cfg.defaultRadiusKm).ratValue)
      variantId gid enr
    have hxe : x ∈ enr := (List.mem_filter.1 ((ha.2.2.2.2.mem_iff).1 hx)).1
    obtain ⟨loc, g, hng, hxeq⟩ := hmem x hxe
    subst hxeq
    have hcoords := (mkEnriched_spec env qm pin loc g).1
    rw [hcoords]
    exact hng

/-- C7: in every successful response, `status` is `"unknown"` iff
`available` is null, `"instock"` iff it is a quantity `> 0`,
`"outofstock"` iff it is a quantity `≤ 0`, and with no variant supplied
every entry has `available = null` and `status = "unknown"`. -/
theorem inventory_status_spec (cfg : Config) (env : PickupEnv) (st : Caches)
    (pincode variantId : Option String) (radiusKm : JsValue) (shop : String)
    (res : PickupResult) (st2 : Caches)
    (h : buildPickupResponse cfg env st pincode variantId radiusKm shop = (.ok res, st2)) :
    ∀ x ∈ res.inRadius ++ res.outOfRadius,
      ((x.status = "unknown") ↔ x.available = none) ∧
      ((x.status = "instock") ↔ ∃ n, x.available = some n ∧ 0 < n) ∧
      ((x.status = "outofstock") ↔ ∃ n, x.available = some n ∧ n ≤ 0) ∧
      (variantId = none → x.available = none ∧ x.status = "unknown") := by
  obtain ⟨s, pin, qm, gid, enr, hsome, hres, hresolved, hmem, hq⟩ :=
    buildPickup_ok_shape cfg env st pincode variantId radiusKm shop res st2 h
  subst hres
  have ha := assemble_spec s pin ((effectiveRadius radiusKm cfg.defaultRadiusKm).ratValue)
    variantId gid enr
  intro x hx
  have hxe : x ∈ enr := (List.mem_filter.1 ((ha.2.2.2.2.mem_iff).1 hx)).1
  obtain ⟨loc, g, hng, hxeq⟩ := hmem x hxe
  subst hxeq
  have hm := mkEnriched_spec env qm pin loc g
  refine ⟨hm.2.2.1, hm.2.2.2.1, hm.2.2.2.2, ?_⟩
  intro hv
  have hqm := hq hv
  subst hqm
  have hav : (mkEnriched env [] pin loc g).available = none := by
    rw [hm.2.1]
    simp [cacheLookup]
  exact ⟨hav, hm.2.2.1.mpr hav⟩

/-- C3 (amended): the raw geocode cache is only written on success —
every failing `geocode` call leaves it unchanged; but
`geocodeShopifyLocation` does cache the `(0, 0)` failure sentinel in the
location-coordinate cache, and a subsequent call with the same key
returns the cached value with no live lookup (empty provider trace). -/
theorem negative_cache_amended :
    (∀ (cfg : Config) (env : GeoEnv) (cache : GeoCache) (s : String) (e : AppErr)
      (c2 : GeoCache) (t : List ProviderCall),
      geocode cfg env cache s = (.error e, c2, t) → c2 = cache) ∧
    (∀ (cfg : Config) (env : PickupEnv) (lc : LocGeoCache) (gc : GeoCache) (loc : ShopLocation),
      cacheLookup lc ("loc:" ++ loc.id) = none →
      geoFailed (geocode cfg env.geo gc (fullAddrOf loc.address)).1 = true →
      (loc.address.zip ≠ "" → geoFailed (geocode cfg env.geo gc loc.address.zip).1 = true) →
      cacheLookup (geocodeShopifyLocation cfg env lc gc loc).2.1 ("loc:" ++ loc.id) =
        some failSentinel) ∧
    (∀ (cfg : Config) (env : PickupEnv) (lc : LocGeoCache) (gc : GeoCache) (loc : ShopLocation)
      (g : GeoPoint),
      cacheLookup lc ("loc:" ++ loc.id) = some g →
      geocodeShopifyLocation cfg env lc gc loc = (g, lc, gc, [])) := by
  refine ⟨geocode_error_cache, ?_, locGeo_cached⟩
  intro cfg env lc gc loc hmiss hfull hzip
  exact (locGeo_total_failure cfg env lc gc loc hmiss hfull hzip).2

/-- C4: `buildPickupResponse` fails with a 400 InvalidInput-class error
(`pincode_required` / `invalid_pincode`) exactly when the pincode is
absent or its trimmed value is not exactly 4 or 6 decimal digits; for
every pincode that validates, resolution proceeds into the
post-validation pipeline. -/
theorem pincode_validation_iff (cfg : Config) (env : PickupEnv) (st : Caches)
    (pincode variantId : Option String) (radiusKm : JsValue) (shop : String) :
    ((∃ e, (buildPickupResponse cfg env st pincode variantId radiusKm shop).1 = .error e ∧
        e.isValidation = true ∧ e.statusCode = 400) ↔ pinOk pincode = false) ∧
    (∀ s, pincode = some s → pinOk pincode = true →
      buildPickupResponse cfg env st pincode variantId radiusKm shop =
        pickupResolve cfg env st s variantId radiusKm shop) := by
  constructor
  · constructor
    · rintro ⟨e, he, hv, hst⟩
      by_contra hok
      have hok2 : pinOk pincode = true := by
        cases hb : pinOk pincode
        · exact absurd hb hok
        · rfl
      cases pincode with
      | none => simp [pinOk] at hok2
      | some s =>
        have hp : isPin (jsTrim s) = true := hok2
        have hs : s ≠ "" := by
          intro hs0
          subst hs0
          have hf : isPin (jsTrim "") = false := by decide
          rw [hf] at hp
          exact Bool.false_ne_true hp
        rw [buildPickupResponse, if_neg hs, if_neg (not_not_intro hp)] at he
        rcases hr : pickupResolve cfg env st s variantId radiusKm shop with ⟨rr, str⟩
        rw [hr] at he
        cases rr with
        | ok r => simp at he
        | error e1 =>
          have he1 : e1 = e := by
            simpa using he
          subst he1
          have hcls := pickupResolve_err_class cfg env st s variantId radiusKm shop e1 str hr
          rw [hcls] at hv
          exact Bool.false_ne_true hv
    · intro hnot
      cases pincode with
      | none => exact ⟨.pincodeRequired, rfl, rfl, rfl⟩
      | some s =>
        by_cases hs : s = ""
        · refine ⟨.pincodeRequired, ?_, rfl, rfl⟩
          rw [buildPickupResponse, if_pos hs]
        · have hp : isPin (jsTrim s) = false := hnot
          refine ⟨.invalidPincode s, ?_, rfl, rfl⟩
          rw [buildPickupResponse, if_neg hs, if_pos ?_]
          rw [hp]
          exact Bool.false_ne_true
  · intro s hsome hok
    subst hsome
    have hp : isPin (jsTrim s) = true := hok
    have hs : s ≠ "" := by
      intro hs0
      subst hs0
      have hf : isPin (jsTrim "") = false := by decide
      rw [hf] at hp
      exact Bool.false_ne_true hp
    rw [buildPickupResponse, if_neg hs, if_neg (not_not_intro hp)]

/-- C5: in secondary-only mode (`GEOCODER_MODE` lowering to `"osm"`), a
6-digit query with a cold cache and no matching record runs exactly the
OSM structured search (India-scoped) then the OSM freeform search — no
Google call — and fails with `GeocodeNoResult` carrying the original
(trimmed) query. -/
theorem osm_mode_fallback_chain (cfg : Config) (env : GeoEnv) (cache : GeoCache) (q : String)
    (hmode : cfg.mode = "osm") (h6 : isSixDigits (jsTrim q) = true)
    (hmiss : cacheLookup cache ("geo:" ++ jsTrim q) = none)
    (hst : env.osmStructured (jsTrim q) "India" = .ok [])
    (hff : env.osmFreeform (jsTrim q ++ ", India") (some "in") = .ok []) :
    geocode cfg env cache q =
      (.error (.geocodeNoResult (jsTrim q)), cache,
       [.osmStructured (jsTrim q) "India", .osmFreeform (jsTrim q ++ ", India") (some "in")]) := by
  unfold geocode osmStructuredStep osmFreeformStep
  simp [hmiss, hmode, h6, hst, hff]

/-- C6 (amended): in primary-only mode, a no-match/error status from the
primary provider propagates immediately as `GeocodeProviderError` with
the status and error message in its reason; a network/parse failure
propagates immediately as the raw error (not wrapped); in both cases no
secondary strategy runs (the trace is exactly the one Google call). -/
theorem google_mode_failure_amended (cfg : Config) (env : GeoEnv) (cache : GeoCache) (q : String)
    (hmode : cfg.mode = "google")
    (hmiss : cacheLookup cache ("geo:" ++ jsTrim q) = none) :
    (∀ data, env.google (googleParamsFor cfg (jsTrim q)) = .ok data →
      ¬(data.status = "OK" ∧ data.results ≠ []) →
      geocode cfg env cache q =
        (.error (.geocodeProviderError "google"
           ("status=" ++ data.status ++ googleMsg data.error_message) (jsTrim q)), cache,
         [.google (googleParamsFor cfg (jsTrim q))])) ∧
    (∀ e, env.google (googleParamsFor cfg (jsTrim q)) = .error e →
      geocode cfg env cache q =
        (.error (.network e), cache, [.google (googleParamsFor cfg (jsTrim q))])) := by
  constructor
  · intro data hok hno
    unfold geocode googleStep
    simp [hmiss, hmode, hok, hno]
  · intro e herr
    unfold geocode googleStep
    simp [hmiss, hmode, herr]

/-- C8: with a cold cache, `fetchShopifyLocations` pages with
`first: 100` advancing `after` to each page's last-edge cursor while
`hasNextPage` holds, retains exactly the `isActive` nodes of every page
(membership is `isActive` alone, so `fulfillsOnlineOrders` is never
consulted), and caches the result. -/
theorem fetch_locations_spec (env : PickupEnv) (cache : LocListCache) (shop : String)
    (ps : List LocPage) (plast : LocPage)
    (hmiss : cacheLookup cache ("locations:" ++ shop) = none)
    (hpages : env.pages = ps ++ [plast])
    (hps : ∀ p ∈ ps, p.errors = [] ∧ p.hasNextPage = true)
    (hep : plast.errors = []) (hnp : plast.hasNextPage = false) :
    fetchShopifyLocations env cache shop =
      (.ok ((((ps ++ [plast]).map pageNodes).flatten).filter (·.isActive)),
       cacheSet cache ("locations:" ++ shop)
         ((((ps ++ [plast]).map pageNodes).flatten).filter (·.isActive)),
       (100, none) :: ps.map (fun p => (100, pageAfter p))) ∧
    (∀ n, n ∈ (((ps ++ [plast]).map pageNodes).flatten).filter (·.isActive) ↔
      n ∈ ((ps ++ [plast]).map pageNodes).flatten ∧ n.isActive = true) := by
  constructor
  · rw [fetchShopifyLocations]
    rw [hpages]
    simp only [hmiss]
    rw [fetchLoop_spec ps plast [] [] none hps hep hnp]
    simp
  · intro n
    exact List.mem_filter

deriving instance DecidableEq for Except

/-- Concrete configuration with default mode `"auto"`. -/
def cfgW : Config := { googleMapsKey := "k", defaultRadiusKm := "100", geocoderMode := "auto" }

/-- Concrete configuration in secondary-only mode. -/
def cfgOsm : Config := { googleMapsKey := "k", defaultRadiusKm := "100", geocoderMode := "osm" }

/-- Concrete configuration in primary-only mode. -/
def cfgGoogle : Config :=
  { googleMapsKey := "k", defaultRadiusKm := "100", geocoderMode := "google" }

/-- A geocoding environment in which every provider fails to match. -/
def geoFail : GeoEnv :=
  { google := fun _ => .error "down"
    osmStructured := fun _ _ => .ok []
    osmFreeform := fun _ _ => .ok [] }

/-- A geocoding environment whose primary call raises a network error
(while the secondary would answer). -/
def geoNet : GeoEnv :=
  { google := fun _ => .error "ECONNRESET"
    osmStructured := fun _ _ => .ok [{ lat := "1", lon := "2", display_name := "osm" }]
    osmFreeform := fun _ _ => .ok [{ lat := "1", lon := "2", display_name := "osm" }] }

/-- A geocoding environment whose primary provider reports a no-match
status with an error message. -/
def geoZero : GeoEnv :=
  { google := fun _ => .ok { status := "ZERO_RESULTS", results := [], error_message := some "boom" }
    osmStructured := fun _ _ => .ok []
    osmFreeform := fun _ _ => .ok [] }

/-- An address with every field empty. -/
def addrEmpty : Addr :=
  { address1 := "", address2 := "", city := "", province := "", country := "", zip := "" }

/-- An active location that does not fulfill online orders. -/
def locW1 : ShopLocation :=
  { id := "1", name := "A", isActive := true, fulfillsOnlineOrders := false, address := addrEmpty }

/-- An active location that fulfills online orders. -/
def locW2 : ShopLocation :=
  { id := "2", name := "B", isActive := true, fulfillsOnlineOrders := true, address := addrEmpty }

/-- An inactive location. -/
def locInactive : ShopLocation :=
  { id := "3", name := "I", isActive := false, fulfillsOnlineOrders := true, address := addrEmpty }

/-- A location with a street address and no zip, for the failure path. -/
def locF : ShopLocation :=
  { id := "9", name := "F", isActive := true, fulfillsOnlineOrders := true,
    address := { address1 := "Somewhere", address2 := "", city := "", province := "",
                 country := "", zip := "" } }

/-- The cached geocode of the customer pincode. -/
def pinW : GeoPoint := { lat := .fin 28, lng := .fin 77, formatted := "Delhi" }

/-- Cached coordinates of `locW1`. -/
def gW1 : GeoPoint := { lat := .fin 1, lng := .fin 1, formatted := "G1" }

/-- Cached coordinates of `locW2`. -/
def gW2 : GeoPoint := { lat := .fin 2, lng := .fin 2, formatted := "G2" }

/-- A pickup environment with no variant data and distances 10 / 60 km. -/
def envNoVar : PickupEnv :=
  { geo := geoFail
    pages := []
    invItem := fun _ => .error "x"
    levels := fun _ => .error "x"
    dist := fun _ b => if b.lat = .fin 1 then .fin 10 else .fin 60 }

/-- One inventory level: 5 available at location `"1"`. -/
def lvW : InvLevel :=
  { quantities := [{ name := "available", quantity := 5 }], locationId := "1" }

/-- A pickup environment that resolves variant inventory (`"ii"`,
quantity 5 at location `"1"`, no entry for `"2"`). -/
def envVar : PickupEnv :=
  { geo := geoFail
    pages := []
    invItem := fun _ => .ok { errors := [], inventoryItemId := some "ii" }
    levels := fun _ => .ok { errors := [], edges := [lvW] }
    dist := fun _ b => if b.lat = .fin 1 then .fin 10 else .fin 60 }

/-- First locations page: one active and one inactive node, more pages
follow. -/
def pg1 : LocPage :=
  { errors := []
    edges := [{ cursor := "c1", node := locW1 }, { cursor := "c2", node := locInactive }]
    hasNextPage := true }

/-- Final locations page: one active node. -/
def pg2 : LocPage :=
  { errors := [], edges := [{ cursor := "c3", node := locW2 }], hasNextPage := false }

/-- A pickup environment serving the two-page locations collection. -/
def envPages : PickupEnv :=
  { geo := geoFail
    pages := [pg1, pg2]
    invItem := fun _ => .error "x"
    levels := fun _ => .error "x"
    dist := fun _ _ => .fin 0 }

/-- Caches primed with the pincode geocode, both location coordinates and
the location list of shop `"shop1"`. -/
def stPrimed : Caches :=
  { geocodeCache := [("geo:110001", pinW)]
    locationGeoCache := [("loc:1", gW1), ("loc:2", gW2)]
    shopifyLocationsCache := [("locations:shop1", [locW1, locW2])] }

/-- The empty enriched address with a formatted string. -/
def eaW (f : String) : EnrichedAddress :=
  { address1 := "", address2 := "", city := "", province := "", country := "", zip := "",
    formatted := f }

/-- Expected enriched entry for `locW1` without inventory. -/
def eW1 : Enriched :=
  { locationId := "1", name := "A", address := eaW "G1",
    coordinates := { lat := .fin 1, lng := .fin 1 }, distanceKm := .fin 10,
    available := none, status := "unknown" }

/-- Expected enriched entry for `locW2` without inventory. -/
def eW2 : Enriched :=
  { locationId := "2", name := "B", address := eaW "G2",
    coordinates := { lat := .fin 2, lng := .fin 2 }, distanceKm := .fin 60,
    available := none, status := "unknown" }

/-- Expected pickup result for the no-variant run (radius 50). -/
def resW : PickupResult :=
  { input := { pincode := "110001", geocodedLat := .fin 28, geocodedLng := .fin 77,
               geocodedAddress := "Delhi", radiusKm := 50, variantId := none,
               inventoryItemGid := none }
    inRadius := [eW1], outOfRadius := [eW2] }

/-- Expected enriched entry for `locW1` with quantity 5. -/
def eV1 : Enriched :=
  { locationId := "1", name := "A", address := eaW "G1",
    coordinates := { lat := .fin 1, lng := .fin 1 }, distanceKm := .fin 10,
    available := some 5, status := "instock" }

/-- Expected enriched entry for `locW2` with no inventory entry. -/
def eV2 : Enriched :=
  { locationId := "2", name := "B", address := eaW "G2",
    coordinates := { lat := .fin 2, lng := .fin 2 }, distanceKm := .fin 60,
    available := none, status := "unknown" }

/-- Expected pickup result for the variant run (radius 50). -/
def resV : PickupResult :=
  { input := { pincode := "110001", geocodedLat := .fin 28, geocodedLng := .fin 77,
               geocodedAddress := "Delhi", radiusKm := 50, variantId := some "77",
               inventoryItemGid := some "ii" }
    inRadius := [eV1], outOfRadius := [eV2] }

/-- Witness for C1 on a concrete successful run with one in-radius and
one out-of-radius location. -/
theorem pickup_partition_spec_witness :
    buildPickupResponse cfgW envNoVar stPrimed (some "110001") none (.num (.fin 50)) "shop1" =
      (.ok resW, stPrimed) ∧
    JsNum.jsLe eW1.distanceKm (.fin resW.input.radiusKm) = true ∧
    resW.inRadius.Sorted distLe ∧
    resW.outOfRadius.Sorted distLe ∧
    resolvedEnriched cfgW envNoVar stPrimed (some "110001") none "shop1" = some [eW1, eW2] ∧
    (resW.inRadius ++ resW.outOfRadius).Perm
      ([eW1, eW2].filter (fun x => !x.distanceKm.isNaN)) := by
  have hrun : buildPickupResponse cfgW envNoVar stPrimed (some "110001") none
      (.num (.fin 50)) "shop1" = (.ok resW, stPrimed) := by decide
  obtain ⟨h1, h2, h3, h4, enr, h5, h6⟩ :=
    pickup_partition_spec cfgW envNoVar stPrimed (some "110001") none (.num (.fin 50)) "shop1"
      resW stPrimed hrun
  have hre : resolvedEnriched cfgW envNoVar stPrimed (some "110001") none "shop1" =
      some [eW1, eW2] := by decide
  have henr : enr = [eW1, eW2] := by
    rw [hre] at h5
    injection h5 with he
    exact he.symm
  subst henr
  exact ⟨hrun, h1 eW1 (by decide), h3, h4, hre, h6⟩

/-- Witness for C2: a concrete total geocoding failure yields the
sentinel, and a concrete successful run has no `(0, 0)` entry. -/
theorem failed_geocode_excluded_witness :
    (geocodeShopifyLocation cfgW envNoVar [] [] locF).1 = failSentinel ∧
    ¬(eW1.coordinates.lat = .fin 0 ∧ eW1.coordinates.lng = .fin 0) := by
  constructor
  · exact failed_geocode_excluded.1 cfgW envNoVar [] [] locF rfl (by decide) (by decide)
  · exact failed_geocode_excluded.2 cfgW envNoVar stPrimed (some "110001") none
      (.num (.fin 50)) "shop1" resW stPrimed (by decide) eW1 (by decide)

/-- Counterexample for C3 as stated: after a geocoding failure (first
conjunct) the location-coordinate cache has gained a sentinel entry
(second and third conjuncts, starting from the empty cache), and the
subsequent call with the same key performs no live lookup (empty
provider trace) and returns the cached sentinel. -/
theorem negative_cache_counterexample :
    geoFailed (geocode cfgW envNoVar.geo [] (fullAddrOf locF.address)).1 = true ∧
    (geocodeShopifyLocation cfgW envNoVar [] [] locF).2.1 = [("loc:9", failSentinel)] ∧
    cacheLookup (geocodeShopifyLocation cfgW envNoVar [] [] locF).2.1 ("loc:" ++ locF.id) =
      some failSentinel ∧
    (geocodeShopifyLocation cfgW envNoVar [("loc:9", failSentinel)] [] locF).2.2.2 = [] ∧
    (geocodeShopifyLocation cfgW envNoVar [("loc:9", failSentinel)] [] locF).1 =
      failSentinel := by
  decide

/-- Witness for the amended C3 at concrete inputs: a failing `geocode`
leaves the raw cache empty, the failure sentinel lands in the location
cache, and a cached sentinel is served as-is. -/
theorem negative_cache_amended_witness :
    (geocode cfgW geoFail [] "Q").2.1 = [] ∧
    cacheLookup (geocodeShopifyLocation cfgW envNoVar [] [] locF).2.1 ("loc:" ++ locF.id) =
      some failSentinel ∧
    geocodeShopifyLocation cfgW envNoVar [("loc:9", failSentinel)] [] locF =
      (failSentinel, [("loc:9", failSentinel)], [], []) := by
  refine ⟨?_, ?_, ?_⟩
  · exact negative_cache_amended.1 cfgW geoFail [] "Q" (.geocodeNoResult "Q")
      (geocode cfgW geoFail [] "Q").2.1 (geocode cfgW geoFail [] "Q").2.2 (by decide)
  · exact negative_cache_amended.2.1 cfgW envNoVar [] [] locF rfl (by decide) (by decide)
  · exact negative_cache_amended.2.2 cfgW envNoVar [("loc:9", failSentinel)] [] locF
      failSentinel (by decide)

/-- Witness for C4 at a rejected pincode `"12a"` and an accepted pincode
`" 1234 "`. -/
theorem pincode_validation_iff_witness :
    pinOk (some "12a") = false ∧
    (buildPickupResponse cfgW envNoVar stPrimed (some "12a") none .null "shop1").1 =
      .error (.invalidPincode "12a") ∧
    pinOk (some " 1234 ") = true ∧
    buildPickupResponse cfgW envNoVar stPrimed (some " 1234 ") none .null "shop1" =
      pickupResolve cfgW envNoVar stPrimed " 1234 " none .null "shop1" := by
  refine ⟨by decide, by decide, by decide, ?_⟩
  exact (pincode_validation_iff cfgW envNoVar stPrimed (some " 1234 ") none .null "shop1").2
    " 1234 " rfl (by decide)

/-- Witness for C5 at the concrete query `"999999"` with a cold cache in
secondary-only mode. -/
theorem osm_mode_fallback_chain_witness :
    cfgOsm.mode = "osm" ∧
    geocode cfgOsm geoFail [] "999999" =
      (.error (.geocodeNoResult "999999"), [],
       [.osmStructured "999999" "India", .osmFreeform "999999, India" (some "in")]) := by
  refine ⟨by decide, ?_⟩
  have h := osm_mode_fallback_chain cfgOsm geoFail [] "999999" (by decide) (by decide) rfl rfl rfl
  exact h.trans (by decide)

/-- Counterexample for C6 as stated: in primary-only mode a network
failure of the primary provider propagates as the raw error, which is
not a `GeocodeProviderError`. -/
theorem google_mode_raw_error_counterexample :
    geocode cfgGoogle geoNet [] "500001" =
      (.error (.network "ECONNRESET"), [],
       [.google (.components "k" "postal_code:500001|country:IN")]) ∧
    AppErr.isProviderError (.network "ECONNRESET") = false := by
  decide

/-- Witness for the amended C6 at concrete no-match and network
failures. -/
theorem google_mode_failure_amended_witness :
    geocode cfgGoogle geoZero [] "500001" =
      (.error (.geocodeProviderError "google" "status=ZERO_RESULTS - boom" "500001"), [],
       [.google (.components "k" "postal_code:500001|country:IN")]) ∧
    geocode cfgGoogle geoNet [] "500001" =
      (.error (.network "ECONNRESET"), [],
       [.google (.components "k" "postal_code:500001|country:IN")]) := by
  constructor
  · have h := (google_mode_failure_amended cfgGoogle geoZero [] "500001" (by decide) rfl).1
      { status := "ZERO_RESULTS", results := [], error_message := some "boom" } rfl (by decide)
    exact h.trans (by decide)
  · have h := (google_mode_failure_amended cfgGoogle geoNet [] "500001" (by decide) rfl).2
      "ECONNRESET" rfl
    exact h.trans (by decide)

/-- Witness for C7 on a concrete run with a variant: quantity 5 at the
nearest location, no entry for the other. -/
theorem inventory_status_spec_witness :
    buildPickupResponse cfgW envVar stPrimed (some "110001") (some "77")
      (.num (.fin 50)) "shop1" = (.ok resV, stPrimed) ∧
    eV1.status = "instock" ∧
    (eV2.status = "unknown" ↔ eV2.available = none) := by
  have hrun : buildPickupResponse cfgW envVar stPrimed (some "110001") (some "77")
      (.num (.fin 50)) "shop1" = (.ok resV, stPrimed) := by decide
  have h := inventory_status_spec cfgW envVar stPrimed (some "110001") (some "77")
    (.num (.fin 50)) "shop1" resV stPrimed hrun
  have h1 := h eV1 (by decide)
  have h2 := h eV2 (by decide)
  exact ⟨hrun, h1.2.1.mpr ⟨5, by decide, by decide⟩, h2.1⟩

/-- Witness for C8 on a concrete two-page collection: the inactive node
is dropped, both active nodes are kept (one with
`fulfillsOnlineOrders = false`), and the second request carries the
first page's last cursor. -/
theorem fetch_locations_spec_witness :
    fetchShopifyLocations envPages [] "s1" =
      (.ok [locW1, locW2], [("locations:s1", [locW1, locW2])],
       [(100, none), (100, some "c2")]) ∧
    locW1.fulfillsOnlineOrders = false ∧ locW1.isActive = true ∧
    locInactive.isActive = false := by
  refine ⟨?_, rfl, rfl, rfl⟩
  have h := (fetch_locations_spec envPages [] "s1" [pg1] pg2 rfl rfl (by decide) rfl rfl).1
  exact h.trans (by decide)

/-- A geocoding environment whose freeform OSM search answers with an
unparsable latitude string (`"x"`), which JS `Number` converts to NaN. -/
def geoNaN : GeoEnv :=
  { google := fun _ => .error "down"
    osmStructured := fun _ _ => .ok []
    osmFreeform := fun _ _ => .ok [{ lat := "x", lon := "2", display_name := "D" }] }

/-- A pickup environment around `geoNaN` whose distance oracle follows
float semantics: `Number(haversineKm(a, b).toFixed(2))` is NaN when a
coordinate is NaN, 10 otherwise. -/
def envNaN : PickupEnv :=
  { geo := geoNaN
    pages := []
    invItem := fun _ => .error "x"
    levels := fun _ => .error "x"
    dist := fun _ b => if b.lat = .nan then .nan else .fin 10 }

/-- Caches primed with the pincode geocode and the location list of shop
`"shopN"` (one location, `locF`), leaving location geocoding live. -/
def stNaN : Caches :=
  { geocodeCache := [("geo:110001", pinW)]
    locationGeoCache := []
    shopifyLocationsCache := [("locations:shopN", [locF])] }

/-- The enriched record `locF` resolves to under `envNaN`: successfully
geocoded (non-sentinel) but with latitude NaN, hence distance NaN. -/
def eNaN : Enriched :=
  { locationId := "9", name := "F",
    address := { address1 := "Somewhere", address2 := "", city := "", province := "",
                 country := "", zip := "", formatted := "D" }
    coordinates := { lat := .nan, lng := .fin 2 }, distanceKm := .nan,
    available := none, status := "unknown" }

/-- The pickup result of the NaN run: both output lists empty. -/
def resN : PickupResult :=
  { input := { pincode := "110001", geocodedLat := .fin 28, geocodedLng := .fin 77,
               geocodedAddress := "Delhi", radiusKm := 50, variantId := none,
               inventoryItemGid := none }
    inRadius := [], outOfRadius := [] }

/-- Counterexample for C1 as stated: under `envNaN` the location is
successfully geocoded (it is in the enriched list with non-sentinel
coordinates) but its `distanceKm` is NaN, so `distanceKm <= radius` and
`distanceKm > radius` are both false and it appears in neither
`inRadius` nor `outOfRadius` — not in exactly one of the two lists. -/
theorem pickup_partition_counterexample :
    resolvedEnriched cfgW envNaN stNaN (some "110001") none "shopN" = some [eNaN] ∧
    ¬(eNaN.coordinates.lat = .fin 0 ∧ eNaN.coordinates.lng = .fin 0) ∧
    eNaN.distanceKm.isNaN = true ∧
    (buildPickupResponse cfgW envNaN stNaN (some "110001") none
      (.num (.fin 50)) "shopN").1 = .ok resN ∧
    resN.inRadius = [] ∧ resN.outOfRadius = [] := by
  decide
